import Mathlib

/-!
Verification development for the SkyCast weather application
(location-resolution and weather-synthesis pipeline).

Shallow embedding conventions:
* Instants (JavaScript `Date` values) are modelled as minutes since an
  arbitrary epoch (`Int`).  The source never inspects anything below the
  minute level on the paths relevant to the claims (the only sub-minute
  operation is `setMinutes(0,0,0)`, which also zeroes seconds/milliseconds).
* An IANA timezone is modelled as a fixed offset from UTC in minutes
  (daylight-saving transitions are outside the model).  `formatInTimeZone`
  applied with patterns "yyyy-MM-dd" / "HH" corresponds to `dateInTz` /
  `hourInTz` below; `Date.prototype.getHours` / `toDateString` correspond to
  the same functions applied at the browser's (system) offset.
* Geographic coordinates are modelled as integers scaled by 10^4 (the mock
  registry stores four-decimal values, and the random fallback coordinate is
  passed through `toFixed(4)`, so the scaling is exact).
* Strings are handled at ASCII level: `jsToLower`, `jsToUpper`, `jsTrim`
  replicate `toLowerCase` / `toUpperCase` / `trim` on the ASCII range, which
  covers every string that any claim depends on.
* `Math.random()` draws are supplied as explicit rational oracle streams
  (one stream per purpose, each value intended to lie in [0,1)).
-/

/-- Calendar date (as a day index) of instant `t` observed at a fixed
timezone offset `off` (minutes). Models `formatInTimeZone(t, tz, "yyyy-MM-dd")`
and, with the system offset, `Date.prototype.toDateString` equality. -/
def dateInTz (off t : Int) : Int := (t + off) / 1440

/-- Hour of day (0..23) of instant `t` observed at offset `off`. Models
`formatInTimeZone(t, tz, "HH")` and, with the system offset,
`Date.prototype.getHours`. -/
def hourInTz (off t : Int) : Int := ((t + off) / 60) % 24

/-- Instant obtained from `t` by zeroing the minutes (and smaller units) in
the system-local calendar: models `d.setMinutes(0,0,0)` on a fresh `Date`,
at system offset `off`. -/
def startOfHourSys (off t : Int) : Int := ((t + off) / 60) * 60 - off

/-- Fixed-offset model (in minutes) of the IANA timezone database for the
zones appearing in the mock registry. Unknown zones map to 0. -/
def tzOffset (tz : String) : Int :=
  if tz = "America/New_York" then -300
  else if tz = "America/Toronto" then -300
  else if tz = "America/Chicago" then -360
  else if tz = "America/Los_Angeles" then -480
  else if tz = "Europe/London" then 0
  else if tz = "Europe/Paris" then 60
  else if tz = "Asia/Tokyo" then 540
  else 0

/-- ASCII whitespace recognised by the model of `String.prototype.trim`. -/
def isWS (c : Char) : Bool := c == ' ' || c == '\t' || c == '\n' || c == '\r'

/-- ASCII model of lowercasing a single character (JS `toLowerCase`). -/
def lowerChar (c : Char) : Char :=
  if 'A' ≤ c ∧ c ≤ 'Z' then Char.ofNat (c.toNat + 32) else c

/-- ASCII model of uppercasing a single character (JS `toUpperCase`). -/
def upperChar (c : Char) : Char :=
  if 'a' ≤ c ∧ c ≤ 'z' then Char.ofNat (c.toNat - 32) else c

/-- Model of `String.prototype.toLowerCase` (ASCII range). -/
def jsToLower (s : String) : String := ⟨s.data.map lowerChar⟩

/-- Model of `String.prototype.toUpperCase` (ASCII range). -/
def jsToUpper (s : String) : String := ⟨s.data.map upperChar⟩

/-- Model of `String.prototype.trim`. -/
def jsTrim (s : String) : String :=
  ⟨((s.data.dropWhile isWS).reverse.dropWhile isWS).reverse⟩

/-- Model of the JS expression `a || b` on `string | undefined` values:
`undefined` and the empty string are falsy. -/
def jsOrOpt (a b : Option String) : Option String :=
  match a with
  | some s => if s = "" then b else some s
  | none => b

/-- Model of the JS expression `a || d` where `d` is a (truthy) string. -/
def jsOrStr (a : Option String) (d : String) : String :=
  match a with
  | some s => if s = "" then d else s
  | none => d

/-- Per-word step of `toTitleCase` (weather.ts lines 77-84): empty words are
kept empty; words of length at most 2 that equal their own uppercasing are
kept; otherwise the first character is uppercased. -/
def capWord (w : String) : String :=
  if w.length = 0 then ""
  else if w.length ≤ 2 ∧ w = jsToUpper w then w
  else ⟨match w.data with
        | [] => []
        | c :: cs => upperChar c :: cs⟩

/-- Model of JS `String.prototype.split(' ')` at the character-list level:
every single space starts a new (possibly empty) word. -/
def splitOnSpace (l : List Char) : List (List Char) :=
  l.foldr
    (fun c acc =>
      match acc with
      | [] => [[c]]
      | w :: ws => if c = ' ' then [] :: (w :: ws) else (c :: w) :: ws)
    [[]]

/-- Model of `toTitleCase` on a present string (weather.ts lines 75-85):
lowercase the whole string, split on single spaces, capitalise each word,
join with spaces. -/
def titleCase (s : String) : String :=
  String.intercalate " " ((splitOnSpace (jsToLower s).data).map (fun w => capWord ⟨w⟩))

/-- Model of `toTitleCase(str?: string)`: `undefined` (and the falsy empty
string) propagate as `undefined`. -/
def toTitleCase : Option String → Option String
  | none => none
  | some s => if s = "" then none else some (titleCase s)

/-- Geographic coordinate pair (weather.ts interface `Location`);
latitude/longitude scaled by 10^4. -/
structure Location where
  lat : Int
  lng : Int
deriving DecidableEq, Repr

/-- Result record of the geocoding resolver (weather.ts interface
`GeocodedLocation`). -/
structure GeocodedLocation where
  name : String
  city : String
  state : Option String
  country : Option String
  lat : Int
  lng : Int
  timezone : String
deriving DecidableEq, Repr

/-- Structured geocoding query (weather.ts interface
`GeocodedLocationQuery`). -/
structure GeocodedLocationQuery where
  city : String
  state : Option String
  country : Option String
deriving DecidableEq, Repr

/-- Mock registry of places with a single entry (weather.ts
`MOCK_LOCATIONS`), keyed by lowercase name, in source (insertion) order. -/
def MOCK_LOCATIONS : List (String × GeocodedLocation) :=
  [ ("new york", { name := "New York", city := "New York", lat := 407128, lng := -740060,
                   country := some "US", state := some "NY", timezone := "America/New_York" }),
    ("tokyo", { name := "Tokyo", city := "Tokyo", lat := 356895, lng := 1396917,
                country := some "JP", state := some "Tokyo", timezone := "Asia/Tokyo" }),
    ("paris", { name := "Paris", city := "Paris", lat := 485660, lng := 23522,
                country := some "FR", state := some "ÃŽle-de-France", timezone := "Europe/Paris" }) ]

/-- Mock registry of places with several entries (weather.ts
`MOCK_LOCATIONS_MULTI`), keyed by lowercase name, in source order. -/
def MOCK_LOCATIONS_MULTI : List (String × List GeocodedLocation) :=
  [ ("london",
      [ { name := "London", city := "London", lat := 515074, lng := 1278,
          country := some "GB", state := some "England", timezone := "Europe/London" },
        { name := "London", city := "London", lat := 429849, lng := -812453,
          country := some "CA", state := some "ON", timezone := "America/Toronto" },
        { name := "London", city := "London", lat := 371280, lng := -840833,
          country := some "US", state := some "KY", timezone := "America/New_York" } ]),
    ("springfield",
      [ { name := "Springfield", city := "Springfield", lat := 397817, lng := -896501,
          country := some "US", state := some "IL", timezone := "America/Chicago" },
        { name := "Springfield", city := "Springfield", lat := 372153, lng := -932982,
          country := some "US", state := some "MO", timezone := "America/Chicago" },
        { name := "Springfield", city := "Springfield", lat := 421015, lng := -725898,
          country := some "US", state := some "MA", timezone := "America/New_York" } ]) ]

/-- Lookup in the multi-entry registry (`MOCK_LOCATIONS_MULTI[key]`). -/
def lookupMulti (k : String) : Option (List GeocodedLocation) :=
  (MOCK_LOCATIONS_MULTI.find? (fun p => p.1 == k)).map (·.2)

/-- Lookup in the single-entry registry (`MOCK_LOCATIONS[key]`). -/
def lookupSingle (k : String) : Option GeocodedLocation :=
  (MOCK_LOCATIONS.find? (fun p => p.1 == k)).map (·.2)

/-- Default timezone substituted when none can be determined
(weather.ts `DEFAULT_LOCATION_BASE.timezone`). -/
def defaultTimezone : String := "America/Los_Angeles"

/-- Condition label registry (weather.ts `WEATHER_CONDITIONS`). -/
def WEATHER_CONDITIONS : List String :=
  ["Clear Sky", "Few Clouds", "Scattered Clouds", "Broken Clouds",
   "Shower Rain", "Rain", "Thunderstorm", "Snow", "Mist"]

/-- Model of `getRandomCondition` (weather.ts lines 118-120): picks the entry
at index floor(r * 9) for a uniform draw `r` in [0,1). -/
def getRandomCondition (r : ℚ) : String :=
  WEATHER_CONDITIONS.getD (Rat.floor (r * (WEATHER_CONDITIONS.length : ℚ))).toNat "Clear Sky"

/-- Normalisation applied to every registry hit before it is returned
(`processMockResult`, weather.ts lines 134-140 and 213-219). -/
def processMockResult (loc : GeocodedLocation) : GeocodedLocation :=
  { loc with
    name := jsOrStr (toTitleCase (some loc.city)) "Unknown",
    city := loc.city,
    state := toTitleCase loc.state,
    country := loc.country.map jsToUpper }

/-- Synthesised best-effort candidate returned by a plain-text query that
matches no registry entry (weather.ts lines 194-201).  `rlat`, `rlng` stand
for `parseFloat((Math.random() * 180 - 90).toFixed(4))` and the analogous
longitude draw, pre-scaled by 10^4. -/
def fallbackCandidate (q : String) (rlat rlng : Int) : GeocodedLocation :=
  { name := jsOrStr (toTitleCase (some q)) "Unknown Location",
    city := jsOrStr (toTitleCase (some q)) "Unknown Location",
    state := none,
    country := none,
    lat := rlat,
    lng := rlng,
    timezone := defaultTimezone }

/-- String branch of `geocodeCity` (weather.ts lines 179-201): multi-entry
registry first, then single-entry registry, then the not-found signal for
empty/"unknown" input, then the synthesised fallback candidate. -/
def geocodeCityStr (q : String) (rlat rlng : Int) : List GeocodedLocation :=
  match lookupMulti (jsToLower q) with
  | some locs => locs.map processMockResult
  | none =>
    match lookupSingle (jsToLower q) with
    | some loc => [processMockResult loc]
    | none =>
      if jsToLower q = "unknown" ∨ jsTrim q = "" then []
      else [fallbackCandidate q rlat rlng]

/-- Predicate for a JS-falsy optional string (`undefined` or `""`). -/
def optFalsy : Option String → Bool
  | none => true
  | some s => s == ""

/-- Structured (object) branch of `geocodeCity` (weather.ts lines 143-177):
collect every registry entry for the city, filter by the optional state and
country, and widen back to a unique city-only candidate when both state and
country were omitted. This branch never synthesises a fallback candidate. -/
def geocodeCityQuery (q : GeocodedLocationQuery) : List GeocodedLocation :=
  let lcCity := jsToLower q.city
  let lcState := q.state.map jsToLower
  let lcCountry := q.country.map jsToLower
  let allPossibleLocations :=
    (match lookupMulti lcCity with | some ls => ls | none => []) ++
    (match lookupSingle lcCity with | some l => [l] | none => [])
  let results :=
    if allPossibleLocations.length > 0 then
      (allPossibleLocations.filter (fun loc =>
        (optFalsy lcState ||
          (match loc.state, lcState with
           | some ls, some s => jsToLower ls == s
           | _, _ => false)) &&
        (optFalsy lcCountry ||
          (match loc.country, lcCountry with
           | some lc, some s => jsToLower lc == s
           | _, _ => false)))).map processMockResult
    else []
  if results.length == 0 && allPossibleLocations.length == 1 &&
     optFalsy lcState && optFalsy lcCountry then
    allPossibleLocations.map processMockResult
  else results

/-- Reverse geocoding (weather.ts lines 209-245): nearest multi-entry within
0.1 degrees on both axes wins (registry order), then nearest single-entry
within 1 degree, then a synthesised "Current Location" result carrying the
input coordinate and the default timezone.  Tolerances are scaled by 10^4.
The source's `Promise<GeocodedLocation | null>` never actually yields null. -/
def reverseGeocode (coords : Location) : GeocodedLocation :=
  match MOCK_LOCATIONS_MULTI.find? (fun p =>
      p.2.any (fun loc =>
        (loc.lat - coords.lat).natAbs < 1000 && (loc.lng - coords.lng).natAbs < 1000)) with
  | some p =>
      match p.2.find? (fun loc =>
          (loc.lat - coords.lat).natAbs < 1000 && (loc.lng - coords.lng).natAbs < 1000) with
      | some loc => processMockResult loc
      | none => processMockResult { name := "", city := "", state := none, country := none,
                                    lat := 0, lng := 0, timezone := "" }
  | none =>
    match MOCK_LOCATIONS.find? (fun p =>
        (p.2.lat - coords.lat).natAbs < 10000 && (p.2.lng - coords.lng).natAbs < 10000) with
    | some p => processMockResult p.2
    | none =>
        { name := "Current Location", city := "Current Location",
          lat := coords.lat, lng := coords.lng,
          state := toTitleCase (some "Current State"),
          country := some (jsToUpper "Current Country"),
          timezone := "America/Los_Angeles" }

/-- Model of JS `Math.round` (round half toward positive infinity). -/
def jsRound (x : ℚ) : Int := Rat.floor (x + 1/2)

/-- Number of forecast days (weather.ts `NUM_DAYS_FORECAST`). -/
def NUM_DAYS_FORECAST : Nat := 10

/-- Total number of hourly records (weather.ts `TOTAL_HOURS_FORECAST`). -/
def TOTAL_HOURS_FORECAST : Nat := NUM_DAYS_FORECAST * 24

/-- Current weather conditions (weather.ts interface `CurrentWeather`). -/
structure CurrentWeather where
  temperatureCelsius : Int
  feelsLikeCelsius : Int
  conditions : String
  humidity : Int
  windSpeed : Int
  precipitationProbability : Int
  timezone : String
deriving DecidableEq, Repr

/-- Daily forecast entry (weather.ts interface `DailyForecast`).  `date` is
the instant `today + i days`.  The formatted `sunrise`/`sunset` strings are
presentational and referenced by no claim, so they are not modelled. -/
structure DailyForecast where
  date : Int
  highTemperatureCelsius : Int
  lowTemperatureCelsius : Int
  conditions : String
  precipitationProbability : Int
deriving DecidableEq, Repr

/-- Hourly forecast entry (weather.ts interface `HourlyForecast`).  `time`
holds the location-local hour rendered by the source as "HH:00". -/
structure HourlyForecast where
  time : Int
  temperatureCelsius : Int
  feelsLikeCelsius : Int
  conditions : String
  precipitationProbability : Int
  dateTime : Int
deriving DecidableEq, Repr

/-- Generated weather bundle (weather.ts interface `OpenWeatherDataBundle`). -/
structure OpenWeatherDataBundle where
  current : CurrentWeather
  daily : List DailyForecast
  hourly : List HourlyForecast
  timezone : String
  lat : Int
  lng : Int
  locationName : Option String
  county : Option String
  country : Option String
deriving Repr

/-- Environment for one synthesis run: the generation instant, the browser's
(system) timezone offset, and the `Math.random()` draws, one oracle stream
per purpose.  `hourTemp` abstracts the cosine-based diurnal hourly
temperature computation (weather.ts lines 311-333), which is real-valued and
referenced by no claim. -/
structure Env where
  now : Int
  sysOff : Int
  baseTemp : ℚ
  rCurTemp : ℚ
  rCurFeels : ℚ
  rCurCond : ℚ
  rCurHum : ℚ
  rCurWind : ℚ
  rCurPrecip : ℚ
  rDayBase : Nat → ℚ
  rDayLow : Nat → ℚ
  rDayHigh : Nat → ℚ
  rDayClamp : Nat → ℚ
  rDayCond : Nat → ℚ
  rDayPrecip : Nat → ℚ
  hourTemp : Nat → Int
  rHourFeels : Nat → ℚ
  rHourCond : Nat → ℚ
  rHourPrecip : Nat → ℚ

/-- Daily entry for day index `i` (weather.ts lines 279-297).  The date is
`today + i` calendar days in the system timezone, which at a fixed offset is
exactly `i * 1440` minutes after `now`; `low` is clamped below `high` when
the rounded draws collide. -/
def mkDailyForecast (env : Env) (i : Nat) : DailyForecast :=
  let dayBaseTemp : ℚ := env.baseTemp + (env.rDayBase i * 6 - 3)
  let low0 : Int := jsRound (dayBaseTemp - 2 - env.rDayLow i * 5)
  let high : Int := jsRound (dayBaseTemp + 2 + env.rDayHigh i * 5)
  let low : Int := if high ≤ low0 then high - Rat.floor (1 + env.rDayClamp i * 3) else low0
  { date := env.now + 1440 * (i : Int),
    highTemperatureCelsius := high,
    lowTemperatureCelsius := low,
    conditions := getRandomCondition (env.rDayCond i),
    precipitationProbability := Rat.floor (env.rDayPrecip i * 101) }

/-- The generated daily sequence (weather.ts lines 277-297). -/
def genDaily (env : Env) : List DailyForecast :=
  (List.range NUM_DAYS_FORECAST).map (mkDailyForecast env)

/-- Hourly record for hour index `i` (weather.ts lines 305-343).  The first
record sits at the start of the current system hour and each
`setHours(firstHour.getHours() + i)` advances by exactly one hour at a fixed
offset; `locOff` is the offset of the location timezone used for the
"HH:00" label. -/
def mkHourlyForecast (env : Env) (locOff : Int) (i : Nat) : HourlyForecast :=
  let hourDateTime : Int := startOfHourSys env.sysOff env.now + 60 * (i : Int)
  { time := hourInTz locOff hourDateTime,
    temperatureCelsius := env.hourTemp i,
    feelsLikeCelsius := jsRound ((env.hourTemp i : ℚ) - (env.rHourFeels i * 4 - 1)),
    conditions := getRandomCondition (env.rHourCond i),
    precipitationProbability := Rat.floor (env.rHourPrecip i * 71),
    dateTime := hourDateTime }

/-- The generated hourly sequence (weather.ts lines 299-343). -/
def genHourly (env : Env) (locOff : Int) : List HourlyForecast :=
  (List.range TOTAL_HOURS_FORECAST).map (mkHourlyForecast env locOff)

/-- Model of `fetchOpenWeatherDataBundle` (weather.ts lines 254-356): reverse
geocode the coordinate for names and timezone, then synthesise current,
daily and hourly data anchored at the generation instant. -/
def fetchOpenWeatherDataBundle (coords : Location) (env : Env) : OpenWeatherDataBundle :=
  let geoInfo := reverseGeocode coords
  let timezone := if geoInfo.timezone = "" then "America/Los_Angeles" else geoInfo.timezone
  { current :=
      { temperatureCelsius := jsRound (env.baseTemp + (env.rCurTemp * 6 - 3)),
        feelsLikeCelsius := jsRound (env.baseTemp + (env.rCurFeels * 8 - 4)),
        conditions := getRandomCondition env.rCurCond,
        humidity := 30 + Rat.floor (env.rCurHum * 60),
        windSpeed := 2 + Rat.floor (env.rCurWind * 28),
        precipitationProbability := Rat.floor (env.rCurPrecip * 101),
        timezone := timezone },
    daily := genDaily env,
    hourly := genHourly env (tzOffset timezone),
    timezone := timezone,
    lat := coords.lat,
    lng := coords.lng,
    locationName := some geoInfo.name,
    county := geoInfo.state,
    country := geoInfo.country }

/-- The hourly window selection performed by `handleDayCardClick`
(page.tsx lines 194-214, identically at part_006 lines 647-667).  `locOff`
is the offset of `activeDisplayLocation.timezone`; `sysOff` the browser's.
The source builds `nowInLocationTimezone` by re-parsing
`formatInTimeZone(new Date(), tz, "yyyy-MM-dd HH:mm:ssXXX")`; because the
"XXX" pattern embeds the UTC offset, the parsed `Date` denotes the same
instant `clickNow`, so the subsequent `getHours()` / `toDateString()` read
the SYSTEM-local hour and date of the current instant. -/
def filterHourlyForDay (locOff sysOff clickNow dateClicked : Int)
    (raw : List HourlyForecast) : List HourlyForecast :=
  raw.filter (fun hourly =>
    if dateInTz locOff hourly.dateTime = dateInTz locOff dateClicked then
      (if dateInTz sysOff clickNow = dateInTz sysOff dateClicked then
        decide (hourInTz sysOff clickNow + 1 ≤ hourInTz locOff hourly.dateTime)
      else true)
    else false)

/-- Display form of the active location (part_006 interface
`DisplayLocationData`). -/
structure DisplayLocationData where
  lat : Int
  lng : Int
  name : String
  county : Option String
  country : Option String
  timezone : String
deriving DecidableEq, Repr

/-- Session state of the page controller: the React `useState` cells of
`SkyCastPage` (part_006 lines 340-360). -/
structure State where
  activeDisplayLocation : Option DisplayLocationData
  currentWeather : Option CurrentWeather
  dailyForecasts : Option (List DailyForecast)
  rawHourlyForecasts : Option (List HourlyForecast)
  loading : Bool
  error : Option String
  selectedDayForecast : Option DailyForecast
  selectedDateForHourly : Option Int
  displayableHourlyForecasts : Option (List HourlyForecast)
  loadingHourly : Bool
  errorHourly : Option String
  locationOptions : Option (List GeocodedLocation)
  cityForDialog : String
  refineDialogOpen : Bool
  cityToRefine : Option String
  fallbackLocationForRefine : Option GeocodedLocation

/-- Initial session state (the `useState` initialisers). -/
def initialState : State :=
  { activeDisplayLocation := none, currentWeather := none, dailyForecasts := none,
    rawHourlyForecasts := none, loading := true, error := none,
    selectedDayForecast := none, selectedDateForHourly := none,
    displayableHourlyForecasts := none, loadingHourly := false, errorHourly := none,
    locationOptions := none, cityForDialog := "", refineDialogOpen := false,
    cityToRefine := none, fallbackLocationForRefine := none }

/-- Effect of `clearWeatherData` (part_006 lines 364-374). -/
def clearWeatherData (s : State) : State :=
  { s with
    activeDisplayLocation := none
    currentWeather := none
    dailyForecasts := none
    rawHourlyForecasts := none
    displayableHourlyForecasts := none
    selectedDayForecast := none
    selectedDateForHourly := none
    error := none
    errorHourly := none }

/-- One observable step of a `fetchWeatherData` call (part_006 lines
376-424), split at its `await` point so that overlapping calls can
interleave: `start` is the synchronous prefix that runs when the call is
made (set loading, clear the dataset cells), and `complete` is the
continuation that runs when `fetchOpenWeatherDataBundle` resolves (install
the new display location and dataset, clear the error, stop loading).
There is no request-sequence token anywhere in the source: a completion
applies unconditionally. -/
inductive FetchEvent where
  | start (coords : Location) (name county country : Option String)
  | complete (coords : Location) (name county country : Option String) (env : Env)

/-- Apply one `FetchEvent` to the session state.  On completion, the display
location is assembled with argument values taking precedence over bundle
values (`name || bundle.locationName || "Unknown Location"`, part_006 lines
392-399), the four dataset cells are swapped wholesale, `error` is cleared
and `loading` dropped (the `finally`). -/
def stepEvent (s : State) : FetchEvent → State
  | .start _ _ _ _ =>
      { s with
        loading := true
        currentWeather := none
        dailyForecasts := none
        rawHourlyForecasts := none
        displayableHourlyForecasts := none
        selectedDayForecast := none
        selectedDateForHourly := none
        errorHourly := none }
  | .complete coords name county country env =>
      let bundle := fetchOpenWeatherDataBundle coords env
      { s with
        activeDisplayLocation := some
          { lat := bundle.lat
            lng := bundle.lng
            name := jsOrStr (jsOrOpt name bundle.locationName) "Unknown Location"
            county := jsOrOpt county bundle.county
            country := jsOrOpt country bundle.country
            timezone := bundle.timezone }
        currentWeather := some bundle.current
        dailyForecasts := some bundle.daily
        rawHourlyForecasts := some bundle.hourly
        error := none
        loading := false }

/-- Run a sequence of fetch events (an interleaving of the steps of
overlapping `fetchWeatherData` calls) from a state. -/
def runEvents (s : State) (es : List FetchEvent) : State :=
  es.foldl stepEvent s

/-- A full, un-interleaved `fetchWeatherData` call: its synchronous prefix
immediately followed by its completion. -/
def fetchWeatherDataStep (s : State) (coords : Location)
    (name county country : Option String) (env : Env) : State :=
  stepEvent (stepEvent s (.start coords name county country))
    (.complete coords name county country env)

/-- Model of `handleRefineLocationSubmit` (part_006 lines 492-556): close
the dialog, clear the dataset, re-query the resolver with the structured
details; exactly one refined result resolves it directly, several re-enter
disambiguation, zero results fall back to the user's typed text paired with
the stored fallback candidate's coordinate when one exists.  The `finally`
clears the refinement cells; a fetch completion touches neither of them, so
applying the clearing last is equivalent to the source's event ordering. -/
def handleRefineLocationSubmitStep (s : State) (details : GeocodedLocationQuery)
    (env : Env) : State :=
  let s1 := clearWeatherData { s with refineDialogOpen := false, loading := true }
  let s2 :=
    match geocodeCityQuery details with
    | [refinedLoc] =>
        fetchWeatherDataStep s1 ⟨refinedLoc.lat, refinedLoc.lng⟩
          (some refinedLoc.name) refinedLoc.state refinedLoc.country env
    | [] =>
        match s1.fallbackLocationForRefine with
        | some fb =>
            fetchWeatherDataStep s1 ⟨fb.lat, fb.lng⟩
              (some details.city) details.state details.country env
        | none =>
            { s1 with
              error := some ("Could not find location data for \"" ++ details.city ++
                             "\" and no fallback coordinates available.")
              loading := false }
    | refined =>
        { s1 with
          cityForDialog := details.city
          locationOptions := some refined
          loading := false }
  { s2 with cityToRefine := none, fallbackLocationForRefine := none }

/-- Model of `handleDayCardClick` (part_006 lines 625-678, page.tsx lines
172-225): clicking the already-selected day toggles the hourly panel off;
otherwise the clicked day is selected and, when the cached series and active
location exist, the hourly window is computed by `filterHourlyForDay`,
else a per-day error is surfaced.  `clickNow` is the instant of the click
and `sysOff` the browser's timezone offset. -/
def handleDayCardClickStep (s : State) (dayForecast : DailyForecast)
    (dateClicked clickNow sysOff : Int) : State :=
  let toggleOff : Bool :=
    match s.selectedDateForHourly with
    | some sel => dateInTz sysOff sel == dateInTz sysOff dateClicked
    | none => false
  if toggleOff then
    { s with
      selectedDayForecast := none
      selectedDateForHourly := none
      displayableHourlyForecasts := none
      errorHourly := none }
  else
    let s1 := { s with
                selectedDayForecast := some dayForecast
                selectedDateForHourly := some dateClicked
                displayableHourlyForecasts := none
                loadingHourly := true
                errorHourly := none }
    match s1.rawHourlyForecasts, s1.activeDisplayLocation with
    | some raw, some loc =>
        { s1 with
          displayableHourlyForecasts := some
            (filterHourlyForDay (tzOffset loc.timezone) sysOff clickNow dateClicked raw)
          loadingHourly := false }
    | _, _ =>
        { s1 with
          errorHourly := some "Hourly forecast data or location timezone is not available."
          loadingHourly := false }

/-- The orchestrator's `Ready` state: an active location and full dataset
are installed, no error is pending and loading has finished. -/
def ReadyState (s : State) : Prop :=
  s.activeDisplayLocation.isSome ∧ s.currentWeather.isSome ∧
  s.dailyForecasts.isSome ∧ s.rawHourlyForecasts.isSome ∧
  s.error = none ∧ s.loading = false

/-- The orchestrator's `NotFound` state: a user-visible failure with no
active dataset. -/
def NotFoundState (s : State) : Prop :=
  s.error.isSome ∧ s.activeDisplayLocation = none

/-- Concrete synthesis environment used by witnesses and failing-input
evaluations: a given generation instant and system offset, base temperature
10 degrees and every random draw equal to zero. -/
def envZero (now sysOff : Int) : Env :=
  { now := now, sysOff := sysOff, baseTemp := 10,
    rCurTemp := 0, rCurFeels := 0, rCurCond := 0, rCurHum := 0, rCurWind := 0,
    rCurPrecip := 0,
    rDayBase := fun _ => 0, rDayLow := fun _ => 0, rDayHigh := fun _ => 0,
    rDayClamp := fun _ => 0, rDayCond := fun _ => 0, rDayPrecip := fun _ => 0,
    hourTemp := fun _ => 0, rHourFeels := fun _ => 0, rHourCond := fun _ => 0,
    rHourPrecip := fun _ => 0 }

/-- C4: for every daily entry of every generated bundle, the low temperature
is strictly below the high temperature; the corrective clamping step
(weather.ts line 286) guarantees it whenever the clamp draw is
non-negative, which holds for every `Math.random()` value. -/
theorem c4_daily_low_lt_high (coords : Location) (env : Env) (d : DailyForecast)
    (hd : d ∈ (fetchOpenWeatherDataBundle coords env).daily)
    (hr : ∀ i, 0 ≤ env.rDayClamp i) :
    d.lowTemperatureCelsius < d.highTemperatureCelsius := by
  have hd' : d ∈ genDaily env := hd
  simp only [genDaily, List.mem_map, List.mem_range] at hd'
  obtain ⟨i, -, rfl⟩ := hd'
  simp only [mkDailyForecast]
  split
  · have h1 : (1 : Int) ≤ Rat.floor (1 + env.rDayClamp i * 3) := by
      rw [Rat.le_floor]
      have := hr i
      push_cast
      nlinarith
    omega
  · omega

/-- Witness for C4 at a concrete bundle (Tokyo coordinate, zero draws): the
first generated daily entry has its low strictly below its high. -/
theorem c4_witness :
    (mkDailyForecast (envZero 870 0) 0).lowTemperatureCelsius <
      (mkDailyForecast (envZero 870 0) 0).highTemperatureCelsius :=
  c4_daily_low_lt_high ⟨356895, 1396917⟩ (envZero 870 0) (mkDailyForecast (envZero 870 0) 0)
    (List.mem_map.mpr ⟨0, List.mem_range.mpr (by decide), rfl⟩)
    (fun _ => le_refl (0 : ℚ))

/-- Indexing lemma for the generated hourly series. -/
theorem genHourly_getElem (env : Env) (locOff : Int) (i : Nat) :
    (genHourly env locOff)[i]? =
      if i < TOTAL_HOURS_FORECAST then some (mkHourlyForecast env locOff i) else none := by
  unfold genHourly
  rw [List.getElem?_map]
  rcases Nat.lt_or_ge i TOTAL_HOURS_FORECAST with h | h
  · rw [List.getElem?_range h, if_pos h]; rfl
  · rw [if_neg (by omega), List.getElem?_eq_none (by simpa using h)]; rfl

/-- C3: the hourly series of every generated bundle has exactly
forecastHorizonDays times 24 entries (240), consecutive timestamps are
strictly increasing by exactly one hour, and the first timestamp is the top
of the current hour at generation time (minutes zeroed, at most one hour
before the generation instant). -/
theorem c3_hourly_series_shape (coords : Location) (env : Env) (i : Nat)
    (a b c : HourlyForecast)
    (ha : (fetchOpenWeatherDataBundle coords env).hourly[i]? = some a)
    (hb : (fetchOpenWeatherDataBundle coords env).hourly[i + 1]? = some b)
    (hc : (fetchOpenWeatherDataBundle coords env).hourly[0]? = some c) :
    (fetchOpenWeatherDataBundle coords env).hourly.length = NUM_DAYS_FORECAST * 24 ∧
    b.dateTime = a.dateTime + 60 ∧
    (c.dateTime + env.sysOff) % 60 = 0 ∧
    c.dateTime ≤ env.now ∧ env.now < c.dateTime + 60 := by
  obtain ⟨locOff, h⟩ : ∃ o, (fetchOpenWeatherDataBundle coords env).hourly = genHourly env o :=
    ⟨_, rfl⟩
  rw [h] at ha hb hc ⊢
  rw [genHourly_getElem] at ha hb hc
  have hlen : (genHourly env locOff).length = NUM_DAYS_FORECAST * 24 := by
    simp [genHourly, TOTAL_HOURS_FORECAST]
  have hpa : a = mkHourlyForecast env locOff i := by
    split at ha
    · exact (Option.some.inj ha).symm
    · exact absurd ha (by simp)
  have hpb : b = mkHourlyForecast env locOff (i + 1) := by
    split at hb
    · exact (Option.some.inj hb).symm
    · exact absurd hb (by simp)
  have hpc : c = mkHourlyForecast env locOff 0 := by
    split at hc
    · exact (Option.some.inj hc).symm
    · exact absurd hc (by simp)
  subst hpa
  subst hpb
  subst hpc
  refine ⟨hlen, ?_, ?_, ?_, ?_⟩
  · simp only [mkHourlyForecast, startOfHourSys]
    push_cast
    ring_nf
  · simp only [mkHourlyForecast, startOfHourSys]
    omega
  · simp only [mkHourlyForecast, startOfHourSys]
    omega
  · simp only [mkHourlyForecast, startOfHourSys]
    omega

/-- Witness for C3 at a concrete environment (Tokyo coordinate, generation
instant 870, browser at UTC) and index 0. -/
theorem c3_witness :
    (fetchOpenWeatherDataBundle ⟨356895, 1396917⟩ (envZero 870 0)).hourly.length =
        NUM_DAYS_FORECAST * 24 ∧
    (mkHourlyForecast (envZero 870 0) 540 1).dateTime =
        (mkHourlyForecast (envZero 870 0) 540 0).dateTime + 60 ∧
    ((mkHourlyForecast (envZero 870 0) 540 0).dateTime + (envZero 870 0).sysOff) % 60 = 0 ∧
    (mkHourlyForecast (envZero 870 0) 540 0).dateTime ≤ (envZero 870 0).now ∧
    (envZero 870 0).now < (mkHourlyForecast (envZero 870 0) 540 0).dateTime + 60 :=
  c3_hourly_series_shape ⟨356895, 1396917⟩ (envZero 870 0) 0
    (mkHourlyForecast (envZero 870 0) 540 0)
    (mkHourlyForecast (envZero 870 0) 540 1)
    (mkHourlyForecast (envZero 870 0) 540 0)
    (by rw [show (fetchOpenWeatherDataBundle ⟨356895, 1396917⟩ (envZero 870 0)).hourly =
            genHourly (envZero 870 0) 540 from rfl, genHourly_getElem]; rfl)
    (by rw [show (fetchOpenWeatherDataBundle ⟨356895, 1396917⟩ (envZero 870 0)).hourly =
            genHourly (envZero 870 0) 540 from rfl, genHourly_getElem]; rfl)
    (by rw [show (fetchOpenWeatherDataBundle ⟨356895, 1396917⟩ (envZero 870 0)).hourly =
            genHourly (envZero 870 0) 540 from rfl, genHourly_getElem]; rfl)

/-- C10: a structured query whose city appears in neither registry table
yields the empty list; the synthesised fallback candidate exists only in the
plain-text branch of the resolver. -/
theorem c10_structured_no_fallback (q : GeocodedLocationQuery)
    (hm : lookupMulti (jsToLower q.city) = none)
    (hs : lookupSingle (jsToLower q.city) = none) :
    geocodeCityQuery q = [] := by
  simp only [geocodeCityQuery, hm, hs]
  simp

/-- Witness for C10: the structured query for the unregistered city
"Atlantis" resolves to the empty list. -/
theorem c10_witness :
    geocodeCityQuery { city := "Atlantis", state := none, country := none } = [] :=
  c10_structured_no_fallback { city := "Atlantis", state := none, country := none }
    (by decide) (by decide)

/-- C5: resolving any registered place (single-entry or multi-entry) by its
text name and reverse-resolving the coordinate of any returned candidate
yields a location with that candidate's timezone. -/
theorem c5_geocode_reverse_roundtrip (rlat rlng : Int) (k : String)
    (hk : k ∈ ["new york", "tokyo", "paris", "london", "springfield"])
    (c : GeocodedLocation) (hc : c ∈ geocodeCityStr k rlat rlng) :
    (reverseGeocode ⟨c.lat, c.lng⟩).timezone = c.timezone := by
  simp only [List.mem_cons, List.mem_singleton, List.not_mem_nil, or_false] at hk
  rcases hk with rfl | rfl | rfl | rfl | rfl
  · have hc2 : c ∈ geocodeCityStr "new york" 0 0 := hc
    fin_cases hc2
    decide
  · have hc2 : c ∈ geocodeCityStr "tokyo" 0 0 := hc
    fin_cases hc2
    decide
  · have hc2 : c ∈ geocodeCityStr "paris" 0 0 := hc
    fin_cases hc2
    decide
  · have hc2 : c ∈ geocodeCityStr "london" 0 0 := hc
    fin_cases hc2 <;> decide
  · have hc2 : c ∈ geocodeCityStr "springfield" 0 0 := hc
    fin_cases hc2 <;> decide

/-- Witness for C5: the first London candidate is reverse-resolved to a
location in the Europe/London timezone. -/
theorem c5_witness :
    (reverseGeocode ⟨515074, 1278⟩).timezone = "Europe/London" :=
  c5_geocode_reverse_roundtrip 0 0 "london" (by decide)
    { name := "London", city := "London", state := some "England",
      country := some "GB", lat := 515074, lng := 1278, timezone := "Europe/London" }
    (by decide)

/-- The fields a day-click may not touch: the main dataset (hourly series,
daily forecasts, current conditions, active location) and every cell outside
the selected-day / displayed-hours / hourly-loading / per-day-error group. -/
def dayClickFrame (s t : State) : Prop :=
  t.activeDisplayLocation = s.activeDisplayLocation ∧
  t.currentWeather = s.currentWeather ∧
  t.dailyForecasts = s.dailyForecasts ∧
  t.rawHourlyForecasts = s.rawHourlyForecasts ∧
  t.loading = s.loading ∧
  t.error = s.error ∧
  t.locationOptions = s.locationOptions ∧
  t.cityForDialog = s.cityForDialog ∧
  t.refineDialogOpen = s.refineDialogOpen ∧
  t.cityToRefine = s.cityToRefine ∧
  t.fallbackLocationForRefine = s.fallbackLocationForRefine

/-- C8: handling any day-click (toggle-off, error branch for a missing
series or location, or the filtering branch) leaves the stored hourly
series, daily forecasts, current conditions and active location unchanged,
and changes only the selected-day, displayed-hours, hourly-loading and
per-day-error cells. -/
theorem c8_dayclick_frame (s : State) (dayForecast : DailyForecast)
    (dateClicked clickNow sysOff : Int) :
    dayClickFrame s (handleDayCardClickStep s dayForecast dateClicked clickNow sysOff) := by
  unfold handleDayCardClickStep dayClickFrame
  dsimp only
  repeat' split
  all_goals exact ⟨rfl, rfl, rfl, rfl, rfl, rfl, rfl, rfl, rfl, rfl, rfl⟩

/-- C1, evaluated at a failing input.  Browser at UTC (offset 0), location
Tokyo (offset +540), bundle generated and the index-0 day card clicked at
instant 870 (system 14:30, Tokyo 23:30 of the same epoch day, so the clicked
day is "today" in the location timezone and the current location-local hour
is 23, the last hour of that local day).  The claim requires only records
with location-local hour strictly greater than 23 — the empty list — but the
selection keeps the record of the in-progress local hour 23, because the
source compares against `getHours()` of the re-parsed instant, which is the
system-local hour 14, not the location-local hour 23. -/
theorem c1_code_evaluated_at_failing_input :
    hourInTz (tzOffset "Asia/Tokyo") 870 = 23 ∧
    dateInTz (tzOffset "Asia/Tokyo") 870 = dateInTz (tzOffset "Asia/Tokyo") 870 ∧
    (filterHourlyForDay (tzOffset "Asia/Tokyo") 0 870 870
        (fetchOpenWeatherDataBundle ⟨356895, 1396917⟩ (envZero 870 0)).hourly).map
      (fun r => hourInTz (tzOffset "Asia/Tokyo") r.dateTime) = [23] := by
  refine ⟨by decide, rfl, ?_⟩
  decide

/-- C2, evaluated at a failing input.  Browser at UTC, location Tokyo,
bundle generated at instant 1410 (system 23:30 of epoch day 0); the day-3
card (date instant 5730, location-local calendar day 4) is clicked at
instant 4920 (system 10:00 of epoch day 3, location-local day 3).  The
clicked day is NOT "today" in the location timezone, and the cached series
holds 24 records of that location-local day, yet the selection returns only
13 of them: the source decides "today" with `toDateString()` in the system
timezone, where the clicked date and the click instant share day 3, and so
wrongly applies the next-hour restriction. -/
theorem c2_code_evaluated_at_failing_input :
    ((fetchOpenWeatherDataBundle ⟨356895, 1396917⟩ (envZero 1410 0)).daily.map
        DailyForecast.date)[3]? = some 5730 ∧
    dateInTz (tzOffset "Asia/Tokyo") 5730 ≠ dateInTz (tzOffset "Asia/Tokyo") 4920 ∧
    ((fetchOpenWeatherDataBundle ⟨356895, 1396917⟩ (envZero 1410 0)).hourly.filter
        (fun r => dateInTz (tzOffset "Asia/Tokyo") r.dateTime ==
                  dateInTz (tzOffset "Asia/Tokyo") 5730)).length = 24 ∧
    (filterHourlyForDay (tzOffset "Asia/Tokyo") 0 4920 5730
        (fetchOpenWeatherDataBundle ⟨356895, 1396917⟩ (envZero 1410 0)).hourly).length = 13 := by
  refine ⟨?_, by decide, ?_, ?_⟩
  · rw [show (fetchOpenWeatherDataBundle ⟨356895, 1396917⟩ (envZero 1410 0)).daily =
        genDaily (envZero 1410 0) from rfl]
    decide
  · decide
  · decide

/-- Interleaving of two overlapping resolution operations from the same
session: an older intent targeting Tokyo starts, a newer intent targeting
Paris starts, the newer one's response arrives first and is applied, and
finally the older (now stale) response arrives and is applied. -/
def raceTrace : List FetchEvent :=
  [ FetchEvent.start ⟨356895, 1396917⟩ (some "Tokyo") none none,
    FetchEvent.start ⟨485660, 23522⟩ (some "Paris") none none,
    FetchEvent.complete ⟨485660, 23522⟩ (some "Paris") none none (envZero 870 0),
    FetchEvent.complete ⟨356895, 1396917⟩ (some "Tokyo") none none (envZero 870 0) ]

/-- C9 counterexample: `fetchWeatherData` carries no request-sequence token,
so after the race in `raceTrace` the session displays the OLDER intent's
location (Tokyo) — the stale, slow response has overwritten the state set by
the newer, faster one (Paris), refuting the claim that this can never
happen. -/
theorem c9_stale_counterexample :
    ((runEvents initialState raceTrace).activeDisplayLocation.map
        DisplayLocationData.name) = some "Tokyo" ∧
    ((runEvents initialState raceTrace).activeDisplayLocation.map
        DisplayLocationData.name) ≠ some "Paris" := by
  constructor
  · rfl
  · decide

/-- C9 amended: each completion of a resolution operation performs an
unconditional whole-state swap of the dataset cells, so the operation whose
response arrives LAST determines the final shared state, regardless of the
order in which the operations started; no sequence token exists. -/
theorem c9_last_completion_wins (s : State) (es : List FetchEvent)
    (coords : Location) (name county country : Option String) (env : Env) :
    (runEvents s (es ++ [FetchEvent.complete coords name county country env])).activeDisplayLocation =
      some { lat := (fetchOpenWeatherDataBundle coords env).lat
             lng := (fetchOpenWeatherDataBundle coords env).lng
             name := jsOrStr (jsOrOpt name (fetchOpenWeatherDataBundle coords env).locationName)
                       "Unknown Location"
             county := jsOrOpt county (fetchOpenWeatherDataBundle coords env).county
             country := jsOrOpt country (fetchOpenWeatherDataBundle coords env).country
             timezone := (fetchOpenWeatherDataBundle coords env).timezone } ∧
    (runEvents s (es ++ [FetchEvent.complete coords name county country env])).currentWeather =
      some (fetchOpenWeatherDataBundle coords env).current ∧
    (runEvents s (es ++ [FetchEvent.complete coords name county country env])).dailyForecasts =
      some (fetchOpenWeatherDataBundle coords env).daily ∧
    (runEvents s (es ++ [FetchEvent.complete coords name county country env])).rawHourlyForecasts =
      some (fetchOpenWeatherDataBundle coords env).hourly ∧
    (runEvents s (es ++ [FetchEvent.complete coords name county country env])).error = none ∧
    (runEvents s (es ++ [FetchEvent.complete coords name county country env])).loading = false := by
  unfold runEvents
  rw [List.foldl_append]
  exact ⟨rfl, rfl, rfl, rfl, rfl, rfl⟩

/-- C7: when the structured re-query of a refinement submission returns zero
results and a prior fallback candidate is stored, the orchestrator never
hard-fails: it resolves the user's typed city text paired with the fallback
candidate's coordinate, ends in the Ready state with no error, and never in
NotFound. -/
theorem c7_refinement_zero_results_fallback (s : State)
    (details : GeocodedLocationQuery) (env : Env) (fb : GeocodedLocation)
    (hfb : s.fallbackLocationForRefine = some fb)
    (hzero : geocodeCityQuery details = [])
    (hcity : details.city ≠ "") :
    ReadyState (handleRefineLocationSubmitStep s details env) ∧
    ¬ NotFoundState (handleRefineLocationSubmitStep s details env) ∧
    (handleRefineLocationSubmitStep s details env).activeDisplayLocation =
      some { lat := fb.lat
             lng := fb.lng
             name := details.city
             county := jsOrOpt details.state
                         (fetchOpenWeatherDataBundle ⟨fb.lat, fb.lng⟩ env).county
             country := jsOrOpt details.country
                          (fetchOpenWeatherDataBundle ⟨fb.lat, fb.lng⟩ env).country
             timezone := (fetchOpenWeatherDataBundle ⟨fb.lat, fb.lng⟩ env).timezone } := by
  have hs1 : (clearWeatherData { s with refineDialogOpen := false, loading := true
             }).fallbackLocationForRefine = some fb := hfb
  unfold handleRefineLocationSubmitStep
  rw [hzero]
  dsimp only
  rw [hs1]
  unfold fetchWeatherDataStep stepEvent
  dsimp only
  refine ⟨⟨rfl, rfl, rfl, rfl, rfl, rfl⟩, ?_, ?_⟩
  · intro hnf
    exact absurd hnf.2 (by simp)
  · have hname : jsOrStr (jsOrOpt (some details.city)
        (fetchOpenWeatherDataBundle ⟨fb.lat, fb.lng⟩ env).locationName) "Unknown Location" =
        details.city := by
      simp [jsOrOpt, jsOrStr, hcity]
    rw [hname]
    rfl

/-- Synthesised fallback candidate for the unregistered city "Smallville",
as stored while its refinement dialog is open. -/
def refineWitnessFallback : GeocodedLocation :=
  { name := "Smallville", city := "Smallville", state := none, country := none,
    lat := 123456, lng := 654321, timezone := "America/Los_Angeles" }

/-- Session state in which the "Smallville" refinement dialog is pending. -/
def refineWitnessState : State :=
  { initialState with
    refineDialogOpen := true
    cityToRefine := some "Smallville"
    fallbackLocationForRefine := some refineWitnessFallback }

/-- Witness for C7: submitting refinement details for "Smallville" (zero
registry matches) from the pending state reaches Ready with the typed city
name and the fallback coordinate, not NotFound. -/
theorem c7_witness :
    ReadyState (handleRefineLocationSubmitStep refineWitnessState
      ⟨"Smallville", some "KS", some "US"⟩ (envZero 870 0)) ∧
    ¬ NotFoundState (handleRefineLocationSubmitStep refineWitnessState
      ⟨"Smallville", some "KS", some "US"⟩ (envZero 870 0)) ∧
    (handleRefineLocationSubmitStep refineWitnessState
        ⟨"Smallville", some "KS", some "US"⟩ (envZero 870 0)).activeDisplayLocation =
      some { lat := refineWitnessFallback.lat
             lng := refineWitnessFallback.lng
             name := "Smallville"
             county := jsOrOpt (some "KS")
                         (fetchOpenWeatherDataBundle
                           ⟨refineWitnessFallback.lat, refineWitnessFallback.lng⟩
                           (envZero 870 0)).county
             country := jsOrOpt (some "US")
                          (fetchOpenWeatherDataBundle
                            ⟨refineWitnessFallback.lat, refineWitnessFallback.lng⟩
                            (envZero 870 0)).country
             timezone := (fetchOpenWeatherDataBundle
                           ⟨refineWitnessFallback.lat, refineWitnessFallback.lng⟩
                           (envZero 870 0)).timezone } :=
  c7_refinement_zero_results_fallback refineWitnessState
    ⟨"Smallville", some "KS", some "US"⟩ (envZero 870 0) refineWitnessFallback
    rfl (by decide) (by decide)

/-- Lowercasing fixes whitespace characters. -/
theorem lowerChar_of_isWS (c : Char) (h : isWS c = true) : lowerChar c = c := by
  simp only [isWS, Bool.or_eq_true, beq_iff_eq] at h
  rcases h with ((rfl | rfl) | rfl) | rfl <;> decide

/-- A string whose trim is empty consists only of whitespace characters. -/
theorem allWS_of_jsTrim_eq_empty (q : String) (h : jsTrim q = "") :
    ∀ c ∈ q.data, isWS c = true := by
  have h2 : ((q.data.dropWhile isWS).reverse.dropWhile isWS).reverse = [] :=
    congrArg String.data h
  rw [List.reverse_eq_nil_iff, List.dropWhile_eq_nil_iff] at h2
  intro c hc
  rw [← List.takeWhile_append_dropWhile (p := isWS) (l := q.data)] at hc
  rcases List.mem_append.mp hc with h3 | h3
  · exact List.mem_takeWhile_imp h3
  · exact h2 c (List.mem_reverse.mpr h3)

/-- Lowercasing an all-whitespace string never yields a string containing a
non-whitespace character. -/
theorem lower_ne_of_allWS (q k : String) (hq : ∀ c ∈ q.data, isWS c = true)
    (hk : ¬ ∀ c ∈ k.data, isWS c = true) : ¬ (k == jsToLower q) = true := by
  intro he
  rw [beq_iff_eq] at he
  apply hk
  intro c hc
  have hdata : k.data = q.data.map lowerChar := by rw [he]; rfl
  have hc2 : c ∈ q.data.map lowerChar := hdata ▸ hc
  obtain ⟨c0, hc0, rfl⟩ := List.mem_map.mp hc2
  rw [lowerChar_of_isWS c0 (hq c0 hc0)]
  exact hq c0 hc0

/-- Both registry lookups miss every all-whitespace query. -/
theorem lookups_none_of_allWS (q : String) (hq : ∀ c ∈ q.data, isWS c = true) :
    lookupMulti (jsToLower q) = none ∧ lookupSingle (jsToLower q) = none := by
  constructor
  · rw [lookupMulti, Option.map_eq_none', List.find?_eq_none]
    intro x hx
    fin_cases hx <;> exact lower_ne_of_allWS q _ hq (by decide)
  · rw [lookupSingle, Option.map_eq_none', List.find?_eq_none]
    intro x hx
    fin_cases hx <;> exact lower_ne_of_allWS q _ hq (by decide)

/-- Every entry list stored in the multi-entry registry is non-empty. -/
theorem lookupMulti_nonempty (k : String) (ls : List GeocodedLocation)
    (h : lookupMulti k = some ls) : ls ≠ [] := by
  unfold lookupMulti at h
  obtain ⟨p, hp, rfl⟩ := Option.map_eq_some'.mp h
  have hmem := List.mem_of_find?_eq_some hp
  fin_cases hmem <;> simp

/-- Evaluation of the string branch of `geocodeCity` when both registry
lookups miss: the not-found check, then the synthesised fallback. -/
theorem geocodeCityStr_of_lookup_none (q : String) (rlat rlng : Int)
    (hm : lookupMulti (jsToLower q) = none) (hs : lookupSingle (jsToLower q) = none) :
    geocodeCityStr q rlat rlng =
      if jsToLower q = "unknown" ∨ jsTrim q = "" then []
      else [fallbackCandidate q rlat rlng] := by
  unfold geocodeCityStr
  rw [hm, hs]

/-- C6: an empty/whitespace-only text query, or one equal to "unknown"
case-insensitively, resolves to the empty list (the not-found signal); every
other non-empty text query yields a non-empty result, and an unregistered
one yields exactly one synthesised candidate carrying the in-range random
coordinate and the default timezone. -/
theorem c6_text_query_fallback (q : String) (rlat rlng : Int)
    (hlat : -900000 ≤ rlat ∧ rlat ≤ 900000)
    (hlng : -1800000 ≤ rlng ∧ rlng ≤ 1800000) :
    ((jsTrim q = "" ∨ jsToLower q = "unknown") → geocodeCityStr q rlat rlng = []) ∧
    (jsTrim q ≠ "" → jsToLower q ≠ "unknown" →
      geocodeCityStr q rlat rlng ≠ [] ∧
      (lookupMulti (jsToLower q) = none → lookupSingle (jsToLower q) = none →
        geocodeCityStr q rlat rlng = [fallbackCandidate q rlat rlng] ∧
        (fallbackCandidate q rlat rlng).timezone = defaultTimezone ∧
        -900000 ≤ (fallbackCandidate q rlat rlng).lat ∧
        (fallbackCandidate q rlat rlng).lat ≤ 900000 ∧
        -1800000 ≤ (fallbackCandidate q rlat rlng).lng ∧
        (fallbackCandidate q rlat rlng).lng ≤ 1800000)) := by
  constructor
  · rintro (h | h)
    · obtain ⟨hm, hs⟩ := lookups_none_of_allWS q (allWS_of_jsTrim_eq_empty q h)
      rw [geocodeCityStr_of_lookup_none q rlat rlng hm hs, if_pos (Or.inr h)]
    · have hm : lookupMulti (jsToLower q) = none := by rw [h]; decide
      have hs : lookupSingle (jsToLower q) = none := by rw [h]; decide
      rw [geocodeCityStr_of_lookup_none q rlat rlng hm hs, if_pos (Or.inl h)]
  · intro ht hu
    rcases hmm : lookupMulti (jsToLower q) with _ | ls
    · rcases hss : lookupSingle (jsToLower q) with _ | l
      · have hev := geocodeCityStr_of_lookup_none q rlat rlng hmm hss
        rw [if_neg (by push_neg; exact ⟨hu, ht⟩)] at hev
        refine ⟨by rw [hev]; simp, ?_⟩
        intro _ _
        exact ⟨hev, rfl, hlat.1, hlat.2, hlng.1, hlng.2⟩
      · have hev : geocodeCityStr q rlat rlng = [processMockResult l] := by
          unfold geocodeCityStr
          rw [hmm, hss]
        refine ⟨by rw [hev]; simp, ?_⟩
        intro _ hs2
        exact absurd hs2 (by simp)
    · have hev : geocodeCityStr q rlat rlng = ls.map processMockResult := by
        unfold geocodeCityStr
        rw [hmm]
      have hne := lookupMulti_nonempty _ _ hmm
      refine ⟨?_, ?_⟩
      · rw [hev]
        simp only [ne_eq, List.map_eq_nil_iff]
        exact hne
      · intro hm2 _
        exact absurd hm2 (by simp)

/-- Witness for C6 at the unregistered query "Gotham" with random
coordinate draws 0 / 0. -/
theorem c6_witness :
    ((jsTrim "Gotham" = "" ∨ jsToLower "Gotham" = "unknown") →
      geocodeCityStr "Gotham" 0 0 = []) ∧
    (jsTrim "Gotham" ≠ "" → jsToLower "Gotham" ≠ "unknown" →
      geocodeCityStr "Gotham" 0 0 ≠ [] ∧
      (lookupMulti (jsToLower "Gotham") = none → lookupSingle (jsToLower "Gotham") = none →
        geocodeCityStr "Gotham" 0 0 = [fallbackCandidate "Gotham" 0 0] ∧
        (fallbackCandidate "Gotham" 0 0).timezone = defaultTimezone ∧
        -900000 ≤ (fallbackCandidate "Gotham" 0 0).lat ∧
        (fallbackCandidate "Gotham" 0 0).lat ≤ 900000 ∧
        -1800000 ≤ (fallbackCandidate "Gotham" 0 0).lng ∧
        (fallbackCandidate "Gotham" 0 0).lng ≤ 1800000)) :=
  c6_text_query_fallback "Gotham" 0 0 ⟨by decide, by decide⟩ ⟨by decide, by decide⟩
